import Mathlib

/-!
Shallow embedding of `src/controller/steam_deck.py` (class `StreamDeckController`).

The device transport, PIL image operations and the SVG rasterizer are external
collaborators of the repository; they are modelled as opaque type parameters
(`Img` for PIL images, `NImg` for native key-format images) and function
parameters (`rasterize`, `toNative`, `writeFn`, ...).  All control flow, the
tag values, the cache discipline and the write-suppression logic are translated
directly from the Python source.
-/

namespace SteamDeck

/-- Python `TransportError` (from `StreamDeck.Transport.Transport`), carrying a message. -/
inductive TransportError where
  | mk (msg : String) : TransportError
deriving DecidableEq, Repr

/-- Python-level exceptions that the controller code can raise:
an `IndexError` from indexing `self._last_images`, or a propagated `TransportError`. -/
inductive PyErr where
  | indexError : PyErr
  | transport (e : TransportError) : PyErr
deriving DecidableEq, Repr

/-- The `unique_key` tuples stored in `self._last_images`.  The source uses exactly
four shapes of tuple, compared by Python value equality:
`("none", None)` (line 29), `("render_all", None)` (line 116),
`("empty_key", None)` (line 153) and `("render_key", (icon, label, background))`
(line 162).  The distinct first components make the four shapes pairwise distinct. -/
inductive Tag where
  | noneTag : Tag
  | renderAll : Tag
  | emptyKey : Tag
  | renderKey (icon label background : String) : Tag
deriving DecidableEq, Repr

/-- `ButtonConfig` from `config.config_store`: the fields `set_key_image` and
`update` read (`icon`, `label`, `selected`). -/
structure ButtonConfig where
  icon : String
  label : String
  selected : Bool
deriving DecidableEq, Repr

/-- `ConfigStore` view used by `update`: `remote_connected` and the ordered
button sequence. -/
structure ConfigStore where
  remote_connected : Bool
  buttons : List ButtonConfig
deriving DecidableEq, Repr

/-- Module constant `KEY_SPACING = (36, 36)` (line 13). -/
def KEY_SPACING : Nat × Nat := (36, 36)

/-- Module constant `BACKGROUND_COLOR = "#9D2235"` (line 15). -/
def BACKGROUND_COLOR : String := "#9D2235"

/-- Module constant `ACTIVE_COLOR = BACKGROUND_COLOR` (line 17). -/
def ACTIVE_COLOR : String := BACKGROUND_COLOR

/-- Module constant `NOT_ACTIVE_COLOR = "#424242"` (line 18). -/
def NOT_ACTIVE_COLOR : String := "#424242"

/-- Render-cache key: `cache_key = (icon_filename, label_text, background)` (line 125). -/
abbrev RKey := String × String × String

/-- Python `dict` lookup on the icon cache (`cache_key in self._icon_cache` /
`self._icon_cache[cache_key]`), modelled on an insertion-ordered association list. -/
def cacheFind {Img : Type} : List (RKey × Img) → RKey → Option Img
  | [], _ => none
  | (k', v) :: rest, k => if k' = k then some v else cacheFind rest k

/-- Number of cache entries stored under a given key. -/
def cacheCount {Img : Type} : List (RKey × Img) → RKey → Nat
  | [], _ => 0
  | (k', _) :: rest, k => (if k' = k then 1 else 0) + cacheCount rest k

/-- Result of one controller operation: the hardware writes issued
(calls to `self._deck.set_key_image(key, image)`, in order), the final
controller state, and the exception propagating out of the call, if any. -/
structure Outcome (NImg S : Type) where
  writes : List (Nat × NImg)
  state : S
  err : Option PyErr
deriving DecidableEq, Repr

/-- An always-succeeding transport write (a healthy device). -/
def okWrite {NImg : Type} : Nat → NImg → Except TransportError Unit :=
  fun _ _ => Except.ok ()

/-- The write-suppression pattern shared verbatim by `render_all_keys`
(lines 116-119), `set_key_empty` (lines 153-156) and `set_key_image`
(lines 162-165): read `self._last_images[key]`; if it equals the candidate
tag, do nothing; otherwise call `self._deck.set_key_image(key, img)` and then
store the candidate tag.  A failing write raises before the store executes.
Indexing outside `self._last_images` raises `IndexError`. -/
def maybeWrite {NImg : Type} (writeFn : Nat → NImg → Except TransportError Unit)
    (last : List Tag) (key : Nat) (tag : Tag) (img : NImg) :
    Outcome NImg (List Tag) :=
  match last[key]? with
  | none => ⟨[], last, some PyErr.indexError⟩
  | some stored =>
    if stored = tag then ⟨[], last, none⟩
    else
      match writeFn key img with
      | Except.error e => ⟨[(key, img)], last, some (PyErr.transport e)⟩
      | Except.ok _ => ⟨[(key, img)], last.set key tag, none⟩

/-- `render_key` (lines 124-148).  `rasterize` abstracts the deterministic
image construction of lines 129-145 (SVG load + recolor + scale for a non-empty
icon, plain key image otherwise, then the label text drawn with the fixed
font), as a function of `(icon_filename, label_text, background)`; `toNative`
abstracts `PILHelper.to_native_key_format`.  Returns the native image, the
cache after the call, and how many times the rasterization work was performed
during the call (0 on a cache hit, 1 on a miss). -/
def render_key {Img NImg : Type} (rasterize : String → String → String → Img)
    (toNative : Img → NImg) (cache : List (RKey × Img))
    (icon_filename label_text background : String) :
    NImg × List (RKey × Img) × Nat :=
  let cache_key : RKey := (icon_filename, label_text, background)
  match cacheFind cache cache_key with
  | some image => (toNative image, cache, 0)
  | none =>
    let image := rasterize icon_filename label_text background
    (toNative image, cache ++ [(cache_key, image)], 1)

/-- `set_key_empty` (lines 150-156).  The image built each call by
`PILHelper.create_key_image(deck, background=NOT_ACTIVE_COLOR)` followed by
`to_native_key_format` is a fixed value of the session, abstracted as
`emptyImg`. -/
def set_key_empty {NImg : Type} (writeFn : Nat → NImg → Except TransportError Unit)
    (emptyImg : NImg) (last : List Tag) (key : Nat) : Outcome NImg (List Tag) :=
  maybeWrite writeFn last key Tag.emptyKey emptyImg

/-- `set_key_image` (lines 158-165): pick the background from `selected`,
render (possibly mutating the icon cache), then run the suppressor with tag
`("render_key", (icon, label, background))`.  The cache mutation persists even
when the write is suppressed or the transport call fails. -/
def set_key_image {Img NImg : Type} (writeFn : Nat → NImg → Except TransportError Unit)
    (rasterize : String → String → String → Img) (toNative : Img → NImg)
    (last : List Tag) (cache : List (RKey × Img)) (key : Nat) (button : ButtonConfig) :
    Outcome NImg (List Tag × List (RKey × Img)) :=
  let background := if button.selected then ACTIVE_COLOR else NOT_ACTIVE_COLOR
  let r := render_key rasterize toNative cache button.icon button.label background
  let w := maybeWrite writeFn last key (Tag.renderKey button.icon button.label background) r.1
  ⟨w.writes, (w.state, r.2.1), w.err⟩

/-- The loop body of `render_all_keys` (lines 113-119) over a list of key
indices; an exception raised by a step aborts the loop and propagates. -/
def render_all_loop {NImg : Type} (writeFn : Nat → NImg → Except TransportError Unit)
    (keyImages : Nat → NImg) : List Nat → List Tag → Outcome NImg (List Tag)
  | [], last => ⟨[], last, none⟩
  | k :: ks, last =>
    let r := maybeWrite writeFn last k Tag.renderAll (keyImages k)
    match r.err with
    | some e => ⟨r.writes, r.state, some e⟩
    | none =>
      let r2 := render_all_loop writeFn keyImages ks r.state
      ⟨r.writes ++ r2.writes, r2.state, r2.err⟩

/-- `render_all_keys` (lines 112-119): for `k in range(key_count)`, suppressed
write of `key_images[k]` under the constant tag `("render_all", None)`.
`key_images` is modelled as a total map since the dictionaries passed in are
built over exactly `range(key_count)`. -/
def render_all_keys {NImg : Type} (writeFn : Nat → NImg → Except TransportError Unit)
    (keyImages : Nat → NImg) (keyCount : Nat) (last : List Tag) :
    Outcome NImg (List Tag) :=
  render_all_loop writeFn keyImages (List.range keyCount) last

/-- The loop body of `update` (lines 177-182) over a list of key indices:
`button = buttons[key] if key < len(buttons) else None`, then
`set_key_empty` or `set_key_image`. -/
def update_loop {Img NImg : Type} (writeFn : Nat → NImg → Except TransportError Unit)
    (rasterize : String → String → String → Img) (toNative : Img → NImg)
    (emptyImg : NImg) (buttons : List ButtonConfig) :
    List Nat → List Tag → List (RKey × Img) → Outcome NImg (List Tag × List (RKey × Img))
  | [], last, cache => ⟨[], (last, cache), none⟩
  | k :: ks, last, cache =>
    let step : Outcome NImg (List Tag × List (RKey × Img)) :=
      match buttons[k]? with
      | none =>
        let r := set_key_empty writeFn emptyImg last k
        ⟨r.writes, (r.state, cache), r.err⟩
      | some button => set_key_image writeFn rasterize toNative last cache k button
    match step.err with
    | some e => ⟨step.writes, step.state, some e⟩
    | none =>
      let r2 := update_loop writeFn rasterize toNative emptyImg buttons ks step.state.1 step.state.2
      ⟨step.writes ++ r2.writes, r2.state, r2.err⟩

/-- `update` (lines 171-182): when `remote_connected` is false, render the
precomputed default background on every key and return; otherwise run the
per-key loop over `range(key_count)`. -/
def update {Img NImg : Type} (writeFn : Nat → NImg → Except TransportError Unit)
    (rasterize : String → String → String → Img) (toNative : Img → NImg)
    (emptyImg : NImg) (defaultBackground : Nat → NImg) (keyCount : Nat)
    (config : ConfigStore) (last : List Tag) (cache : List (RKey × Img)) :
    Outcome NImg (List Tag × List (RKey × Img)) :=
  if config.remote_connected = false then
    let r := render_all_keys writeFn defaultBackground keyCount last
    ⟨r.writes, (r.state, cache), r.err⟩
  else
    update_loop writeFn rasterize toNative emptyImg config.buttons (List.range keyCount) last cache

/-- `self._last_images = [("none", None)] * deck.key_count()` (line 29). -/
def initialLastImages (keyCount : Nat) : List Tag :=
  List.replicate keyCount Tag.noneTag

/-- `close_deck` (lines 187-191): when the deck is open, render the default
background (through the suppressor) and then call `self._deck.close()`, whose
possible transport failure is modelled by `deckClose`.  No reset of
`self._last_images` occurs. -/
def close_deck {NImg : Type} (writeFn : Nat → NImg → Except TransportError Unit)
    (defaultBackground : Nat → NImg) (keyCount : Nat) (isOpen : Bool)
    (deckClose : Except TransportError Unit) (last : List Tag) :
    Outcome NImg (List Tag) :=
  if isOpen then
    let r := render_all_keys writeFn defaultBackground keyCount last
    match r.err with
    | some e => ⟨r.writes, r.state, some e⟩
    | none =>
      match deckClose with
      | Except.error e => ⟨r.writes, r.state, some (PyErr.transport e)⟩
      | Except.ok _ => ⟨r.writes, r.state, none⟩
  else ⟨[], last, none⟩

/-- `__exit__` (lines 38-42): run `self.close()` (which just calls
`close_deck`, lines 207-208) and swallow a `TransportError`; any other
exception propagates. -/
def exitContext {NImg : Type} (writeFn : Nat → NImg → Except TransportError Unit)
    (defaultBackground : Nat → NImg) (keyCount : Nat) (isOpen : Bool)
    (deckClose : Except TransportError Unit) (last : List Tag) :
    Outcome NImg (List Tag) :=
  let r := close_deck writeFn defaultBackground keyCount isOpen deckClose last
  match r.err with
  | some (PyErr.transport _) => ⟨r.writes, r.state, none⟩
  | e => ⟨r.writes, r.state, e⟩

/-- `open` (lines 193-205): `self._deck.open()` (failure modelled by
`deckOpen`), then `set_brightness(80)` (failure modelled by `setBrightness`;
the diagnostic accessors of line 196-200 and `set_key_callback` are pure
bookkeeping), then one full `update()`.  Any raised exception propagates. -/
def openDeck {Img NImg : Type} (deckOpen : Except TransportError Unit)
    (setBrightness : Except TransportError Unit)
    (writeFn : Nat → NImg → Except TransportError Unit)
    (rasterize : String → String → String → Img) (toNative : Img → NImg)
    (emptyImg : NImg) (defaultBackground : Nat → NImg) (keyCount : Nat)
    (config : ConfigStore) (last : List Tag) (cache : List (RKey × Img)) :
    Outcome NImg (List Tag × List (RKey × Img)) :=
  match deckOpen with
  | Except.error e => ⟨[], (last, cache), some (PyErr.transport e)⟩
  | Except.ok _ =>
    match setBrightness with
    | Except.error e => ⟨[], (last, cache), some (PyErr.transport e)⟩
    | Except.ok _ =>
      update writeFn rasterize toNative emptyImg defaultBackground keyCount config last cache

/-- Grid geometry of one device session: `key_rows, key_cols` from
`deck.key_layout()`, `key_width, key_height` from
`deck.key_image_format()["size"]`, and the inter-key spacing, which in the
source is the module constant `KEY_SPACING` unpacked at lines 48 and 84. -/
structure GridSpec where
  rows : Nat
  cols : Nat
  keyWidth : Nat
  keyHeight : Nat
  spacingX : Nat
  spacingY : Nat
deriving DecidableEq, Repr

/-- The full-deck image size computed by `create_full_deck_sized_image`
(lines 46-56): `(key_width*cols + spacing_x*(cols-1), key_height*rows +
spacing_y*(rows-1))`. -/
def full_deck_image_size (g : GridSpec) : Nat × Nat :=
  (g.keyWidth * g.cols + g.spacingX * (g.cols - 1),
   g.keyHeight * g.rows + g.spacingY * (g.rows - 1))

/-- The crop region computed by `crop_key_image_from_deck_sized_image`
(lines 82-92): `row = key // key_cols`, `col = key % key_cols`,
`start = (col*(key_width+spacing_x), row*(key_height+spacing_y))`,
`region = (start_x, start_y, start_x+key_width, start_y+key_height)`.
The source performs no bounds check on `key`; the region is computed for every
index and handed to `PIL.Image.crop`, which never raises on out-of-bounds
regions. -/
def crop_region (g : GridSpec) (key : Nat) : Nat × Nat × Nat × Nat :=
  let row := key / g.cols
  let col := key % g.cols
  let start_x := col * (g.keyWidth + g.spacingX)
  let start_y := row * (g.keyHeight + g.spacingY)
  (start_x, start_y, start_x + g.keyWidth, start_y + g.keyHeight)

/-- The spec's `tileRect` contract, written from the spec's own words for
comparison with `crop_region`: it fails with `IndexOutOfRange` (here: `none`)
when the index lies outside `[0, rows*cols)`, and otherwise returns the
rectangle `start = (col*(tileWidth+spacingX), row*(tileHeight+spacingY))`,
`end = start + (tileWidth, tileHeight)`. -/
def tileRect_spec (g : GridSpec) (i : Nat) : Option (Nat × Nat × Nat × Nat) :=
  if i < g.rows * g.cols then
    let row := i / g.cols
    let col := i % g.cols
    some (col * (g.keyWidth + g.spacingX), row * (g.keyHeight + g.spacingY),
          col * (g.keyWidth + g.spacingX) + g.keyWidth,
          row * (g.keyHeight + g.spacingY) + g.keyHeight)
  else none

/-- The grid of the spec's Scenario A: 2 rows, 4 columns, 72-by-72 keys,
spacing `KEY_SPACING = (36, 36)`. -/
def scenarioGrid : GridSpec :=
  { rows := 2, cols := 4, keyWidth := 72, keyHeight := 72,
    spacingX := KEY_SPACING.1, spacingY := KEY_SPACING.2 }

end SteamDeck

namespace SteamDeck

/-! ### Helper lemmas about the write suppressor and its loops -/

/-- Under a healthy transport, one suppressor step at an in-range index never
raises, preserves the tag-array length, leaves the candidate tag stored at the
index, and touches no other index. -/
theorem maybeWrite_ok_state {NImg : Type} (last : List Tag) (key : Nat) (tag : Tag)
    (img : NImg) (h : key < last.length) :
    (maybeWrite okWrite last key tag img).err = none
    ∧ (maybeWrite okWrite last key tag img).state.length = last.length
    ∧ (maybeWrite okWrite last key tag img).state[key]? = some tag
    ∧ ∀ i, i ≠ key → (maybeWrite okWrite last key tag img).state[i]? = last[i]? := by
  have hget : last[key]? = some last[key] := List.getElem?_eq_getElem h
  by_cases heq : last[key] = tag
  · simp [maybeWrite, hget, heq]
  · have hmw : maybeWrite okWrite last key tag img
        = ⟨[(key, img)], last.set key tag, none⟩ := by
      simp [maybeWrite, hget, heq, okWrite]
    rw [hmw]
    refine ⟨rfl, by simp, by simp [h], ?_⟩
    intro i hi
    exact List.getElem?_set_ne (fun hk => hi hk.symm)

/-- A suppressor step whose stored tag already equals the candidate does
nothing at all. -/
theorem maybeWrite_ok_noop {NImg : Type} (last : List Tag) (key : Nat) (tag : Tag)
    (img : NImg) (hget : last[key]? = some tag) :
    maybeWrite okWrite last key tag img = ⟨[], last, none⟩ := by
  simp [maybeWrite, hget]

end SteamDeck

namespace SteamDeck

/-- Running the `render_all_keys` loop over in-range indices with a healthy
transport never raises, preserves the length of `self._last_images`, stores
the constant `("render_all", None)` tag at every visited index and leaves
every other index untouched. -/
theorem render_all_loop_ok {NImg : Type} (keyImages : Nat → NImg) (ks : List Nat)
    (last : List Tag) (hks : ∀ k ∈ ks, k < last.length) :
    (render_all_loop okWrite keyImages ks last).err = none
    ∧ (render_all_loop okWrite keyImages ks last).state.length = last.length
    ∧ (∀ i ∈ ks, (render_all_loop okWrite keyImages ks last).state[i]? = some Tag.renderAll)
    ∧ ∀ i, i ∉ ks → (render_all_loop okWrite keyImages ks last).state[i]? = last[i]? := by
  induction ks generalizing last with
  | nil => simp [render_all_loop]
  | cons k ks ih =>
    have hk : k < last.length := hks k (List.mem_cons_self k ks)
    obtain ⟨herr, hlen, hkey, hother⟩ :=
      maybeWrite_ok_state last k Tag.renderAll (keyImages k) hk
    set r := maybeWrite okWrite last k Tag.renderAll (keyImages k) with hr
    have hks' : ∀ j ∈ ks, j < r.state.length := by
      intro j hj
      rw [hlen]
      exact hks j (List.mem_cons_of_mem _ hj)
    obtain ⟨ihe, ihl, ihin, ihout⟩ := ih r.state hks'
    have hloop : render_all_loop okWrite keyImages (k :: ks) last
        = ⟨r.writes ++ (render_all_loop okWrite keyImages ks r.state).writes,
           (render_all_loop okWrite keyImages ks r.state).state,
           (render_all_loop okWrite keyImages ks r.state).err⟩ := by
      rw [render_all_loop, ← hr, herr]
    rw [hloop]
    refine ⟨ihe, ihl.trans hlen, ?_, ?_⟩
    · intro i hi
      rcases List.mem_cons.mp hi with hik | hiks
      · subst hik
        by_cases hinks : i ∈ ks
        · exact ihin i hinks
        · rw [ihout i hinks]
          exact hkey
      · exact ihin i hiks
    · intro i hi
      rw [ihout i (fun hx => hi (List.mem_cons_of_mem _ hx)),
        hother i (fun hx => hi (hx ▸ List.mem_cons_self k ks))]

/-- When every visited index already stores the `("render_all", None)` tag,
the `render_all_keys` loop performs no hardware write and changes nothing. -/
theorem render_all_loop_noop {NImg : Type} (keyImages : Nat → NImg) (ks : List Nat)
    (last : List Tag) (hks : ∀ k ∈ ks, last[k]? = some Tag.renderAll) :
    render_all_loop okWrite keyImages ks last = ⟨[], last, none⟩ := by
  induction ks with
  | nil => rw [render_all_loop]
  | cons k ks ih =>
    have hmw := maybeWrite_ok_noop last k Tag.renderAll (keyImages k)
      (hks k (List.mem_cons_self k ks))
    rw [render_all_loop, hmw]
    simp [ih (fun j hj => hks j (List.mem_cons_of_mem _ hj))]

end SteamDeck

namespace SteamDeck

/-- The candidate tag that one iteration of the `update` loop (lines 177-182)
presents to the write suppressor for a given key: the `("empty_key", None)`
tag when the button sequence has no entry for the key, and otherwise the
`("render_key", (icon, label, background))` tag with the background chosen
from `selected`. -/
def desiredTag (buttons : List ButtonConfig) (k : Nat) : Tag :=
  match buttons[k]? with
  | none => Tag.emptyKey
  | some b =>
    Tag.renderKey b.icon b.label (if b.selected then ACTIVE_COLOR else NOT_ACTIVE_COLOR)

/-- Running the `update` loop over in-range indices with a healthy transport
never raises, preserves the tag-array length, stores each visited key's
candidate tag at that key, and leaves every other index untouched. -/
theorem update_loop_ok {Img NImg : Type} (rasterize : String → String → String → Img)
    (toNative : Img → NImg) (emptyImg : NImg) (buttons : List ButtonConfig)
    (ks : List Nat) (last : List Tag) (cache : List (RKey × Img))
    (hks : ∀ k ∈ ks, k < last.length) :
    (update_loop okWrite rasterize toNative emptyImg buttons ks last cache).err = none
    ∧ (update_loop okWrite rasterize toNative emptyImg buttons ks last cache).state.1.length
        = last.length
    ∧ (∀ i ∈ ks, (update_loop okWrite rasterize toNative emptyImg buttons ks last cache).state.1[i]?
        = some (desiredTag buttons i))
    ∧ ∀ i, i ∉ ks →
        (update_loop okWrite rasterize toNative emptyImg buttons ks last cache).state.1[i]?
          = last[i]? := by
  induction ks generalizing last cache with
  | nil => simp [update_loop]
  | cons k ks ih =>
    have hk : k < last.length := hks k (List.mem_cons_self k ks)
    have main : ∀ (img : NImg) (stepC : List (RKey × Img)),
        update_loop okWrite rasterize toNative emptyImg buttons (k :: ks) last cache
          = (let mw := maybeWrite okWrite last k (desiredTag buttons k) img
             let r2 := update_loop okWrite rasterize toNative emptyImg buttons ks mw.state stepC
             ⟨mw.writes ++ r2.writes, r2.state, r2.err⟩) →
        (update_loop okWrite rasterize toNative emptyImg buttons (k :: ks) last cache).err = none
        ∧ (update_loop okWrite rasterize toNative emptyImg buttons
            (k :: ks) last cache).state.1.length = last.length
        ∧ (∀ i ∈ k :: ks, (update_loop okWrite rasterize toNative emptyImg buttons
            (k :: ks) last cache).state.1[i]? = some (desiredTag buttons i))
        ∧ ∀ i, i ∉ k :: ks →
            (update_loop okWrite rasterize toNative emptyImg buttons
              (k :: ks) last cache).state.1[i]? = last[i]? := by
      intro img stepC hloop
      obtain ⟨herr, hlen, hkey, hother⟩ :=
        maybeWrite_ok_state last k (desiredTag buttons k) img hk
      set mw := maybeWrite okWrite last k (desiredTag buttons k) img with hmw
      have hks' : ∀ j ∈ ks, j < mw.state.length := by
        intro j hj
        rw [hlen]
        exact hks j (List.mem_cons_of_mem _ hj)
      obtain ⟨ihe, ihl, ihin, ihout⟩ := ih mw.state stepC hks'
      rw [hloop]
      refine ⟨ihe, ihl.trans hlen, ?_, ?_⟩
      · intro i hi
        rcases List.mem_cons.mp hi with hik | hiks
        · subst hik
          by_cases hinks : i ∈ ks
          · exact ihin i hinks
          · rw [ihout i hinks]
            exact hkey
        · exact ihin i hiks
      · intro i hi
        rw [ihout i (fun hx => hi (List.mem_cons_of_mem _ hx)),
          hother i (fun hx => hi (hx ▸ List.mem_cons_self k ks))]
    cases hb : buttons[k]? with
    | none =>
      refine main emptyImg cache ?_
      have hdes : desiredTag buttons k = Tag.emptyKey := by
        simp [desiredTag, hb]
      rw [update_loop]
      simp only [hb, set_key_empty, hdes]
      obtain ⟨herr, -, -, -⟩ := maybeWrite_ok_state last k Tag.emptyKey emptyImg hk
      simp only [herr]
    | some b =>
      refine main (render_key rasterize toNative cache b.icon b.label
          (if b.selected then ACTIVE_COLOR else NOT_ACTIVE_COLOR)).1
        (render_key rasterize toNative cache b.icon b.label
          (if b.selected then ACTIVE_COLOR else NOT_ACTIVE_COLOR)).2.1 ?_
      have hdes : desiredTag buttons k
          = Tag.renderKey b.icon b.label
              (if b.selected then ACTIVE_COLOR else NOT_ACTIVE_COLOR) := by
        simp [desiredTag, hb]
      rw [update_loop]
      simp only [hb, set_key_image, hdes]
      obtain ⟨herr, -, -, -⟩ := maybeWrite_ok_state last k (desiredTag buttons k)
        (render_key rasterize toNative cache b.icon b.label
          (if b.selected then ACTIVE_COLOR else NOT_ACTIVE_COLOR)).1 hk
      rw [hdes] at herr
      simp only [herr]

end SteamDeck

namespace SteamDeck

/-- Appending a fresh entry to a cache that lacks the key makes lookup hit it. -/
theorem cacheFind_append_self {Img : Type} (cache : List (RKey × Img)) (k : RKey) (v : Img)
    (h : cacheFind cache k = none) : cacheFind (cache ++ [(k, v)]) k = some v := by
  induction cache with
  | nil => simp [cacheFind]
  | cons p rest ih =>
    obtain ⟨k', v'⟩ := p
    simp only [cacheFind] at h
    simp only [List.cons_append, cacheFind]
    by_cases hk : k' = k
    · rw [if_pos hk] at h
      exact absurd h (by simp)
    · rw [if_neg hk] at h ⊢
      exact ih h

/-- A key that lookup misses has no entries. -/
theorem cacheFind_none_count {Img : Type} (cache : List (RKey × Img)) (k : RKey)
    (h : cacheFind cache k = none) : cacheCount cache k = 0 := by
  induction cache with
  | nil => rfl
  | cons p rest ih =>
    obtain ⟨k', v'⟩ := p
    simp only [cacheFind] at h
    simp only [cacheCount]
    by_cases hk : k' = k
    · rw [if_pos hk] at h
      exact absurd h (by simp)
    · rw [if_neg hk] at h
      simp [if_neg hk, ih h]

/-- Entry counting distributes over cache concatenation. -/
theorem cacheCount_append {Img : Type} (c1 c2 : List (RKey × Img)) (k : RKey) :
    cacheCount (c1 ++ c2) k = cacheCount c1 k + cacheCount c2 k := by
  induction c1 with
  | nil => simp [cacheCount]
  | cons p rest ih =>
    obtain ⟨k', v'⟩ := p
    simp only [List.cons_append, cacheCount, List.append_eq, ih]
    omega

/-! ### Claims -/

/-- C1: per distinct (tileIndex, tag) transition the suppressor performs at
most one hardware write.  On a healthy transport and an in-range index: if the
stored tag equals the candidate, no write is issued and the state is
unchanged; if it differs, exactly one write `(key, img)` is issued and the
candidate becomes the stored tag; and presenting the same candidate tag again
immediately afterwards issues no further write. -/
theorem C1_suppressor_writes_once {NImg : Type} (last : List Tag) (key : Nat)
    (tag : Tag) (img img2 : NImg) (h : key < last.length) :
    (last[key]? = some tag → maybeWrite okWrite last key tag img = ⟨[], last, none⟩)
    ∧ (last[key]? ≠ some tag →
        (maybeWrite okWrite last key tag img).writes = [(key, img)]
        ∧ (maybeWrite okWrite last key tag img).state = last.set key tag)
    ∧ (maybeWrite okWrite (maybeWrite okWrite last key tag img).state key tag img2).writes
        = [] := by
  have hget : last[key]? = some last[key] := List.getElem?_eq_getElem h
  refine ⟨fun he => maybeWrite_ok_noop last key tag img he, fun hne => ?_, ?_⟩
  · have heq : ¬(last[key] = tag) := fun hx => hne (by rw [hget, hx])
    constructor <;> simp [maybeWrite, hget, heq, okWrite]
  · obtain ⟨-, -, hkey, -⟩ := maybeWrite_ok_state last key tag img h
    rw [maybeWrite_ok_noop _ key tag img2 hkey]

/-- Witness for C1 at a concrete input: index 0 of a one-key deck whose stored
tag is the sentinel; a second presentation of the same candidate writes
nothing. -/
theorem C1_witness :
    0 < ([Tag.noneTag] : List Tag).length
    ∧ (maybeWrite okWrite
        ((maybeWrite okWrite [Tag.noneTag] 0 Tag.renderAll (0 : Nat)).state)
        0 Tag.renderAll (1 : Nat)).writes = [] :=
  ⟨by decide, (C1_suppressor_writes_once [Tag.noneTag] 0 Tag.renderAll 0 1 (by decide)).2.2⟩

/-- C3: the full-deck image size is `(cols*tileWidth + (cols-1)*spacingX,
rows*tileHeight + (rows-1)*spacingY)` and the crop region of key `i`
(row `i / cols`, column `i % cols`) starts at
`(col*(tileWidth+spacingX), row*(tileHeight+spacingY))` and ends at
`start + (tileWidth, tileHeight)`; for the Scenario A grid (2 rows, 4 columns,
72-by-72 keys, spacing 36) the panel is `(396, 180)` and key 5 occupies
`(108, 108)`-`(180, 180)`. -/
theorem C3_geometry (g : GridSpec) (i : Nat) :
    full_deck_image_size g
      = (g.cols * g.keyWidth + (g.cols - 1) * g.spacingX,
         g.rows * g.keyHeight + (g.rows - 1) * g.spacingY)
    ∧ crop_region g i
      = ((i % g.cols) * (g.keyWidth + g.spacingX),
         (i / g.cols) * (g.keyHeight + g.spacingY),
         (i % g.cols) * (g.keyWidth + g.spacingX) + g.keyWidth,
         (i / g.cols) * (g.keyHeight + g.spacingY) + g.keyHeight)
    ∧ full_deck_image_size scenarioGrid = (396, 180)
    ∧ crop_region scenarioGrid 5 = (108, 108, 180, 180) := by
  refine ⟨?_, rfl, by decide, by decide⟩
  rw [full_deck_image_size, Nat.mul_comm g.keyWidth g.cols,
    Nat.mul_comm g.spacingX (g.cols - 1), Nat.mul_comm g.keyHeight g.rows,
    Nat.mul_comm g.spacingY (g.rows - 1)]

/-- C5: `render_key` is idempotent under an identical cache key.  Starting
from a cache without the key, two successive calls return the same native
image, the second call leaves the cache exactly as the first left it, the
rasterization work happens once in the first call and never in the second,
and the key ends up with exactly one cache entry. -/
theorem C5_render_key_idempotent {Img NImg : Type}
    (rasterize : String → String → String → Img) (toNative : Img → NImg)
    (cache : List (RKey × Img)) (icon label background : String)
    (h : cacheFind cache (icon, label, background) = none) :
    (render_key rasterize toNative cache icon label background).1
      = (render_key rasterize toNative
          (render_key rasterize toNative cache icon label background).2.1
          icon label background).1
    ∧ (render_key rasterize toNative
        (render_key rasterize toNative cache icon label background).2.1
        icon label background).2.1
      = (render_key rasterize toNative cache icon label background).2.1
    ∧ (render_key rasterize toNative cache icon label background).2.2 = 1
    ∧ (render_key rasterize toNative
        (render_key rasterize toNative cache icon label background).2.1
        icon label background).2.2 = 0
    ∧ cacheCount (render_key rasterize toNative cache icon label background).2.1
        (icon, label, background) = 1 := by
  have h1 : render_key rasterize toNative cache icon label background
      = (toNative (rasterize icon label background),
         cache ++ [((icon, label, background), rasterize icon label background)], 1) := by
    simp only [render_key, h]
  have hfind2 : cacheFind
      (cache ++ [((icon, label, background), rasterize icon label background)])
      (icon, label, background) = some (rasterize icon label background) :=
    cacheFind_append_self cache _ _ h
  have h2 : render_key rasterize toNative
      (cache ++ [((icon, label, background), rasterize icon label background)])
      icon label background
      = (toNative (rasterize icon label background),
         cache ++ [((icon, label, background), rasterize icon label background)], 0) := by
    simp only [render_key, hfind2]
  have hcount : cacheCount
      (cache ++ [((icon, label, background), rasterize icon label background)])
      (icon, label, background) = 1 := by
    rw [cacheCount_append, cacheFind_none_count cache _ h]
    simp [cacheCount]
  rw [h1]
  simp only [h2]
  exact ⟨trivial, trivial, trivial, trivial, hcount⟩

/-- Witness for C5 at a concrete input: an empty cache and the render key
("gear", "On", ACTIVE_COLOR) end up with exactly one cache entry. -/
theorem C5_witness :
    cacheFind ([] : List (RKey × Nat)) ("gear", "On", ACTIVE_COLOR) = none
    ∧ cacheCount (render_key (fun _ _ _ => (7 : Nat)) (fun x : Nat => x)
        [] "gear" "On" ACTIVE_COLOR).2.1 ("gear", "On", ACTIVE_COLOR) = 1 :=
  ⟨rfl, (C5_render_key_idempotent (fun _ _ _ => (7 : Nat)) (fun x : Nat => x)
    [] "gear" "On" ACTIVE_COLOR rfl).2.2.2.2⟩

/-- C6 counterexample: on the Scenario A grid (2 rows, 4 columns, so valid
indices are 0..7), the spec's `tileRect` fails at index 8, but the code's
crop computation performs no bounds check and returns the rectangle
`(0, 216, 72, 288)` instead of failing. -/
theorem C6_counterexample :
    crop_region scenarioGrid 8 = (0, 216, 72, 288)
    ∧ tileRect_spec scenarioGrid 8 = none := by decide

/-- C6 (amended): the crop computation never fails: for every grid and every
index, in or out of range, it returns the rectangle starting at
`(col*(tileWidth+spacingX), row*(tileHeight+spacingY))` with extent
`(tileWidth, tileHeight)`, whereas the spec's `tileRect` reports failure for
the out-of-range indices. -/
theorem C6_no_bounds_check (g : GridSpec) (i : Nat) (h : g.rows * g.cols ≤ i) :
    crop_region g i
      = ((i % g.cols) * (g.keyWidth + g.spacingX),
         (i / g.cols) * (g.keyHeight + g.spacingY),
         (i % g.cols) * (g.keyWidth + g.spacingX) + g.keyWidth,
         (i / g.cols) * (g.keyHeight + g.spacingY) + g.keyHeight)
    ∧ tileRect_spec g i = none := by
  refine ⟨rfl, ?_⟩
  rw [tileRect_spec, if_neg (Nat.not_lt.mpr h)]

/-- Witness for C6 at the concrete out-of-range index 8 of the Scenario A grid. -/
theorem C6_witness :
    scenarioGrid.rows * scenarioGrid.cols ≤ 8
    ∧ (crop_region scenarioGrid 8
        = ((8 % scenarioGrid.cols) * (scenarioGrid.keyWidth + scenarioGrid.spacingX),
           (8 / scenarioGrid.cols) * (scenarioGrid.keyHeight + scenarioGrid.spacingY),
           (8 % scenarioGrid.cols) * (scenarioGrid.keyWidth + scenarioGrid.spacingX)
             + scenarioGrid.keyWidth,
           (8 / scenarioGrid.cols) * (scenarioGrid.keyHeight + scenarioGrid.spacingY)
             + scenarioGrid.keyHeight)
      ∧ tileRect_spec scenarioGrid 8 = none) :=
  ⟨by decide, C6_no_bounds_check scenarioGrid 8 (by decide)⟩

/-- C7: when the transport write fails during a suppressor step whose stored
tag differs from the candidate, the stored tag is left untouched and the
`TransportError` propagates, so a later step presenting the same candidate tag
attempts the hardware write again (with any transport). -/
theorem C7_failed_write_keeps_tag {NImg : Type}
    (writeFn : Nat → NImg → Except TransportError Unit) (last : List Tag) (key : Nat)
    (tag : Tag) (img : NImg) (stored : Tag) (e : TransportError)
    (hget : last[key]? = some stored) (hne : stored ≠ tag)
    (hw : writeFn key img = Except.error e) :
    (maybeWrite writeFn last key tag img).state = last
    ∧ (maybeWrite writeFn last key tag img).err = some (PyErr.transport e)
    ∧ ∀ writeFn2 : Nat → NImg → Except TransportError Unit,
        (maybeWrite writeFn2 (maybeWrite writeFn last key tag img).state key tag img).writes
          = [(key, img)] := by
  have h1 : maybeWrite writeFn last key tag img
      = ⟨[(key, img)], last, some (PyErr.transport e)⟩ := by
    simp [maybeWrite, hget, hne, hw]
  rw [h1]
  refine ⟨rfl, rfl, ?_⟩
  intro writeFn2
  cases hwf : writeFn2 key img with
  | error e2 => simp [maybeWrite, hget, hne, hwf]
  | ok u => simp [maybeWrite, hget, hne, hwf]

/-- Witness for C7 at a concrete input: a failing transport on a one-key deck
leaves the sentinel tag in place. -/
theorem C7_witness :
    (([Tag.noneTag] : List Tag)[0]? = some Tag.noneTag)
    ∧ Tag.noneTag ≠ Tag.renderAll
    ∧ (maybeWrite (fun _ _ => Except.error (TransportError.mk "boom"))
        [Tag.noneTag] 0 Tag.renderAll (0 : Nat)).state = [Tag.noneTag] :=
  ⟨by decide, by decide,
    (C7_failed_write_keeps_tag (fun _ _ => Except.error (TransportError.mk "boom"))
      [Tag.noneTag] 0 Tag.renderAll 0 Tag.noneTag (TransportError.mk "boom")
      (by decide) (by decide) rfl).1⟩

end SteamDeck

namespace SteamDeck

/-- C10: `render_all_keys` tags every tile with the single constant
`("render_all", None)` tag, independent of the image dictionary; immediately
after rendering all keys from one dictionary, rendering all keys from any
other dictionary performs zero hardware writes, changes no stored tag, and
raises nothing. -/
theorem C10_render_all_constant_tag {NImg : Type} (keyImages keyImages2 : Nat → NImg)
    (keyCount : Nat) (last : List Tag) (hlen : last.length = keyCount) :
    (∀ i, i < keyCount →
      (render_all_keys okWrite keyImages keyCount last).state[i]? = some Tag.renderAll)
    ∧ render_all_keys okWrite keyImages2 keyCount
        (render_all_keys okWrite keyImages keyCount last).state
      = ⟨[], (render_all_keys okWrite keyImages keyCount last).state, none⟩ := by
  have hks : ∀ k ∈ List.range keyCount, k < last.length := by
    intro k hk
    rw [hlen]
    exact List.mem_range.mp hk
  obtain ⟨-, -, hin, -⟩ := render_all_loop_ok keyImages (List.range keyCount) last hks
  simp only [render_all_keys]
  refine ⟨fun i hi => hin i (List.mem_range.mpr hi), ?_⟩
  exact render_all_loop_noop keyImages2 (List.range keyCount) _ (fun k hk => hin k hk)

/-- Witness for C10 at a concrete input: two different image dictionaries on a
two-key deck; the second full render is a no-op. -/
theorem C10_witness :
    ([Tag.noneTag, Tag.noneTag] : List Tag).length = 2
    ∧ render_all_keys okWrite (fun _ => (1 : Nat)) 2
        (render_all_keys okWrite (fun _ => (0 : Nat)) 2 [Tag.noneTag, Tag.noneTag]).state
      = ⟨[], (render_all_keys okWrite (fun _ => (0 : Nat)) 2
          [Tag.noneTag, Tag.noneTag]).state, none⟩ :=
  ⟨rfl, (C10_render_all_constant_tag (fun _ => 0) (fun _ => 1) 2
    [Tag.noneTag, Tag.noneTag] rfl).2⟩

/-- C4: with `remote_connected = false`, an update cycle never consults the
button entries: any two configurations that both report disconnected produce
the same outcome (same hardware writes, same state, same error behavior), and
on a healthy transport every tile ends up with the Background
(`("render_all", None)`) tag. -/
theorem C4_disconnected_noninterference {Img NImg : Type}
    (writeFn : Nat → NImg → Except TransportError Unit)
    (rasterize : String → String → String → Img) (toNative : Img → NImg)
    (emptyImg : NImg) (defaultBackground : Nat → NImg) (keyCount : Nat)
    (c1 c2 : ConfigStore) (last : List Tag) (cache : List (RKey × Img))
    (h1 : c1.remote_connected = false) (h2 : c2.remote_connected = false)
    (hlen : last.length = keyCount) :
    update writeFn rasterize toNative emptyImg defaultBackground keyCount c1 last cache
      = update writeFn rasterize toNative emptyImg defaultBackground keyCount c2 last cache
    ∧ ∀ i, i < keyCount →
        (update okWrite rasterize toNative emptyImg defaultBackground keyCount
          c1 last cache).state.1[i]? = some Tag.renderAll := by
  constructor
  · simp [update, h1, h2]
  · intro i hi
    have hupd : update okWrite rasterize toNative emptyImg defaultBackground keyCount
        c1 last cache
        = ⟨(render_all_keys okWrite defaultBackground keyCount last).writes,
           ((render_all_keys okWrite defaultBackground keyCount last).state, cache),
           (render_all_keys okWrite defaultBackground keyCount last).err⟩ := by
      simp [update, h1]
    rw [hupd]
    have hks : ∀ k ∈ List.range keyCount, k < last.length := by
      intro k hk
      rw [hlen]
      exact List.mem_range.mp hk
    obtain ⟨-, -, hin, -⟩ := render_all_loop_ok defaultBackground (List.range keyCount) last hks
    simp only [render_all_keys]
    exact hin i (List.mem_range.mpr hi)

/-- Witness for C4 at a concrete input: an empty button list versus a
populated one, both disconnected, give identical outcomes. -/
theorem C4_witness :
    (ConfigStore.mk false []).remote_connected = false
    ∧ (ConfigStore.mk false [ButtonConfig.mk "gear" "On" true]).remote_connected = false
    ∧ ([Tag.noneTag] : List Tag).length = 1
    ∧ update okWrite (fun _ _ _ => (0 : Nat)) (fun x : Nat => x) 0 (fun _ => (5 : Nat)) 1
        ⟨false, []⟩ [Tag.noneTag] []
      = update okWrite (fun _ _ _ => (0 : Nat)) (fun x : Nat => x) 0 (fun _ => (5 : Nat)) 1
        ⟨false, [ButtonConfig.mk "gear" "On" true]⟩ [Tag.noneTag] [] :=
  ⟨rfl, rfl, rfl,
    (C4_disconnected_noninterference okWrite (fun _ _ _ => (0 : Nat)) (fun x : Nat => x) 0
      (fun _ => (5 : Nat)) 1 ⟨false, []⟩ ⟨false, [ButtonConfig.mk "gear" "On" true]⟩
      [Tag.noneTag] [] rfl rfl rfl).1⟩

/-- C9: when `remote_connected = true`, a key index at or beyond the length of
the button sequence is treated as an unconfigured slot: the guarded access
never raises, the whole update cycle completes without error on a healthy
transport, and each such key receives the `("empty_key", None)` tag. -/
theorem C9_short_button_list_safe {Img NImg : Type}
    (rasterize : String → String → String → Img) (toNative : Img → NImg)
    (emptyImg : NImg) (defaultBackground : Nat → NImg) (keyCount : Nat)
    (c : ConfigStore) (last : List Tag) (cache : List (RKey × Img))
    (hr : c.remote_connected = true) (hlen : last.length = keyCount) :
    (update okWrite rasterize toNative emptyImg defaultBackground keyCount
      c last cache).err = none
    ∧ ∀ i, c.buttons.length ≤ i → i < keyCount →
        (update okWrite rasterize toNative emptyImg defaultBackground keyCount
          c last cache).state.1[i]? = some Tag.emptyKey := by
  have hupd : update okWrite rasterize toNative emptyImg defaultBackground keyCount
      c last cache
      = update_loop okWrite rasterize toNative emptyImg c.buttons
          (List.range keyCount) last cache := by
    simp [update, hr]
  rw [hupd]
  have hks : ∀ k ∈ List.range keyCount, k < last.length := by
    intro k hk
    rw [hlen]
    exact List.mem_range.mp hk
  obtain ⟨he, -, hin, -⟩ :=
    update_loop_ok rasterize toNative emptyImg c.buttons (List.range keyCount) last cache hks
  refine ⟨he, ?_⟩
  intro i hbl hik
  rw [hin i (List.mem_range.mpr hik)]
  have hnone : c.buttons[i]? = none := List.getElem?_eq_none hbl
  simp [desiredTag, hnone]

/-- Witness for C9 at a concrete input: an empty button sequence on a one-key
deck updates without error. -/
theorem C9_witness :
    (ConfigStore.mk true []).remote_connected = true
    ∧ ([Tag.noneTag] : List Tag).length = 1
    ∧ (update okWrite (fun _ _ _ => (0 : Nat)) (fun x : Nat => x) 0 (fun _ => (5 : Nat)) 1
        ⟨true, []⟩ [Tag.noneTag] []).err = none :=
  ⟨rfl, rfl,
    (C9_short_button_list_safe (fun _ _ _ => (0 : Nat)) (fun x : Nat => x) 0
      (fun _ => (5 : Nat)) 1 ⟨true, []⟩ [Tag.noneTag] [] rfl rfl).1⟩

end SteamDeck

namespace SteamDeck

/-- C2 counterexample: on a two-key deck (stored tags `("empty_key", None)`),
closing the session leaves the stored tags at `("render_all", None)`, not at
the `("none", None)` sentinel of `__init__`, and the first update after a
reopen with the remote disconnected performs zero hardware writes instead of
unconditionally writing both tiles. -/
theorem C2_counterexample :
    (close_deck okWrite (fun _ => (0 : Nat)) 2 true (Except.ok ())
        [Tag.emptyKey, Tag.emptyKey]).state ≠ initialLastImages 2
    ∧ (openDeck (Except.ok ()) (Except.ok ()) okWrite (fun _ _ _ => (0 : Nat))
        (fun x : Nat => x) 0 (fun _ => (0 : Nat)) 2 ⟨false, []⟩
        (close_deck okWrite (fun _ => (0 : Nat)) 2 true (Except.ok ())
          [Tag.emptyKey, Tag.emptyKey]).state []).writes = [] := by decide

/-- C2 (amended): `close_deck` does not reset the stored tags to the sentinel;
instead it leaves every tile's stored tag at the Background
`("render_all", None)` value (and raises nothing on a healthy transport), so
the first update of a subsequent reopen writes a tile only when its candidate
tag differs from Background — in particular a post-reopen update cycle with
the remote disconnected performs zero hardware writes. -/
theorem C2_close_keeps_background_tags {Img NImg : Type}
    (rasterize : String → String → String → Img) (toNative : Img → NImg)
    (emptyImg : NImg) (defaultBackground keyImages2 : Nat → NImg) (keyCount : Nat)
    (last : List Tag) (cache : List (RKey × Img)) (hlen : last.length = keyCount) :
    (close_deck okWrite defaultBackground keyCount true (Except.ok ()) last).err = none
    ∧ (∀ i, i < keyCount →
        (close_deck okWrite defaultBackground keyCount true (Except.ok ()) last).state[i]?
          = some Tag.renderAll)
    ∧ (openDeck (Except.ok ()) (Except.ok ()) okWrite rasterize toNative emptyImg
        keyImages2 keyCount ⟨false, []⟩
        (close_deck okWrite defaultBackground keyCount true (Except.ok ()) last).state
        cache).writes = [] := by
  have hks : ∀ k ∈ List.range keyCount, k < last.length := by
    intro k hk
    rw [hlen]
    exact List.mem_range.mp hk
  obtain ⟨he, -, hin, -⟩ := render_all_loop_ok defaultBackground (List.range keyCount) last hks
  have he' : (render_all_keys okWrite defaultBackground keyCount last).err = none := he
  have hclose : close_deck okWrite defaultBackground keyCount true (Except.ok ()) last
      = ⟨(render_all_keys okWrite defaultBackground keyCount last).writes,
         (render_all_keys okWrite defaultBackground keyCount last).state, none⟩ := by
    simp only [close_deck, if_true]
    rw [he']
  rw [hclose]
  have hnoop := render_all_loop_noop keyImages2 (List.range keyCount)
    (render_all_loop okWrite defaultBackground (List.range keyCount) last).state
    (fun k hk => hin k hk)
  refine ⟨rfl, fun i hi => hin i (List.mem_range.mpr hi), ?_⟩
  simp only [openDeck, update, render_all_keys]
  simp [hnoop]

/-- Witness for C2 (amended) at a concrete input: a one-key deck closing from
the sentinel state. -/
theorem C2_witness :
    ([Tag.noneTag] : List Tag).length = 1
    ∧ (close_deck okWrite (fun _ => (3 : Nat)) 1 true (Except.ok ())
        [Tag.noneTag]).err = none :=
  ⟨rfl, (C2_close_keeps_background_tags (fun _ _ _ => (0 : Nat)) (fun x : Nat => x) 0
    (fun _ => (3 : Nat)) (fun _ => (4 : Nat)) 1 [Tag.noneTag] [] rfl).1⟩

/-- C8: a `TransportError` raised while closing the session (here from
`deck.close()`) is swallowed by `__exit__`, which completes without error; a
`TransportError` raised by `deck.open()` during `open` propagates; and a
`TransportError` raised by a mid-session hardware write during an update cycle
propagates out of `update`. -/
theorem C8_transport_error_scoping {Img NImg : Type}
    (rasterize : String → String → String → Img) (toNative : Img → NImg)
    (emptyImg : NImg) (defaultBackground : Nat → NImg) (keyCount : Nat)
    (c : ConfigStore) (last : List Tag) (cache : List (RKey × Img))
    (e : TransportError) (b : ButtonConfig) (hlen : last.length = keyCount) :
    (exitContext okWrite defaultBackground keyCount true (Except.error e) last).err = none
    ∧ (openDeck (Except.error e) (Except.ok ()) okWrite rasterize toNative emptyImg
        defaultBackground keyCount c last cache).err = some (PyErr.transport e)
    ∧ (update (fun _ _ => Except.error e) rasterize toNative emptyImg defaultBackground 1
        ⟨true, [b]⟩ [Tag.noneTag] cache).err = some (PyErr.transport e) := by
  refine ⟨?_, rfl, ?_⟩
  · have hks : ∀ k ∈ List.range keyCount, k < last.length := by
      intro k hk
      rw [hlen]
      exact List.mem_range.mp hk
    obtain ⟨he, -, -, -⟩ := render_all_loop_ok defaultBackground (List.range keyCount) last hks
    have he' : (render_all_keys okWrite defaultBackground keyCount last).err = none := he
    have hclose : close_deck okWrite defaultBackground keyCount true (Except.error e) last
        = ⟨(render_all_keys okWrite defaultBackground keyCount last).writes,
           (render_all_keys okWrite defaultBackground keyCount last).state,
           some (PyErr.transport e)⟩ := by
      simp only [close_deck, if_true]
      rw [he']
    simp only [exitContext, hclose]
  · simp [update, update_loop, set_key_image, render_key, maybeWrite, List.range_succ]

/-- Witness for C8 at a concrete input: a device that disconnects before
`deck.close()`; `__exit__` still completes without error. -/
theorem C8_witness :
    ([Tag.noneTag] : List Tag).length = 1
    ∧ (exitContext okWrite (fun _ => (0 : Nat)) 1 true
        (Except.error (TransportError.mk "gone")) [Tag.noneTag]).err = none :=
  ⟨rfl, (C8_transport_error_scoping (fun _ _ _ => (0 : Nat)) (fun x : Nat => x) 0
    (fun _ => (0 : Nat)) 1 ⟨false, []⟩ [Tag.noneTag] ([] : List (RKey × Nat))
    (TransportError.mk "gone") ⟨"", "", false⟩ rfl).1⟩

end SteamDeck
